import Mathlib

/-! Shallow embedding of the MapLibre plugin-template control
(`src/lib/core/PluginControl.ts`) : the control state machine
(toggle / expand / collapse / setState), the event registry (on / off / _emit),
the lifecycle hooks (onAdd / onRemove) and the corner-aware panel positioner
(_updatePanelPosition).  DOM side effects (CSS class changes, position
recomputation, event emissions) are recorded as an explicit action trace;
JS object-identity semantics of the state snapshot are modelled with an
explicit heap in the Snapshot section.
-/

/-- The `data` field of `PluginState`: `Record<string, unknown>`, modelled as an
insertion-ordered association list; the opaque values are modelled by `Nat`. -/
abbrev DataObj := List (String × Nat)

/-- Lookup of a key in a data record. -/
def lookupData : DataObj → String → Option Nat
  | [], _ => none
  | (k, v) :: rest, key => if k = key then some v else lookupData rest key

/-- `PluginControlEvent` from `src/lib/core/types.ts`. -/
inductive Ev
  | collapse
  | expand
  | statechange
deriving DecidableEq

/-- `PluginState` from `src/lib/core/types.ts`: coordinates and widths are JS
numbers, embedded as exact rationals. -/
structure PluginState where
  collapsed : Bool
  panelWidth : ℚ
  data : DataObj
deriving DecidableEq

/-- `Partial<PluginState>`: each field may be present or absent. -/
structure StatePatch where
  collapsed : Option Bool := none
  panelWidth : Option ℚ := none
  data : Option DataObj := none
deriving DecidableEq

/-- JS object spread `{ ...st, ...p }` at type `PluginState`: every top-level
field present in `p` replaces the corresponding field of `st`. -/
def spreadState (st : PluginState) (p : StatePatch) : PluginState :=
  { collapsed := p.collapsed.getD st.collapsed
    panelWidth := p.panelWidth.getD st.panelWidth
    data := p.data.getD st.data }

/-- Handlers are opaque function references compared by identity; modelled as
`Nat` identifiers.  A JS `Set` of handlers is an insertion-ordered list without
duplicates (the operations below preserve that). -/
abbrev HandlerSet := List Nat

/-- JS `Set.add`: appends unless already a member. -/
def setAdd (s : HandlerSet) (h : Nat) : HandlerSet :=
  if h ∈ s then s else s ++ [h]

/-- JS `Set.delete`. -/
def setDelete (s : HandlerSet) (h : Nat) : HandlerSet :=
  s.filter (fun x => x ≠ h)

/-- `EventHandlersMap`: a JS `Map` from event name to handler set, insertion
ordered. -/
abbrev EventHandlersMap := List (Ev × HandlerSet)

/-- JS `Map.get`. -/
def mapGet : EventHandlersMap → Ev → Option HandlerSet
  | [], _ => none
  | (k, s) :: rest, e => if k = e then some s else mapGet rest e

/-- JS `Map.has`. -/
def mapHas (m : EventHandlersMap) (e : Ev) : Bool :=
  (mapGet m e).isSome

/-- JS `Map.set`: overwrites in place when the key exists (preserving
insertion order), otherwise appends. -/
def mapSetEntry : EventHandlersMap → Ev → HandlerSet → EventHandlersMap
  | [], e, s => [(e, s)]
  | (k, s0) :: rest, e, s =>
      if k = e then (k, s) :: rest else (k, s0) :: mapSetEntry rest e s

/-- `PluginControlOptions` after defaults are applied
(`Required<PluginControlOptions>`). -/
inductive Corner
  | topLeft
  | topRight
  | bottomLeft
  | bottomRight
deriving DecidableEq

structure PluginControlOptions where
  collapsed : Bool
  position : Corner
  title : String
  panelWidth : ℚ
  className : String
deriving DecidableEq

/-- `DEFAULT_OPTIONS` from `PluginControl.ts`. -/
def DEFAULT_OPTIONS : PluginControlOptions :=
  { collapsed := true
    position := Corner.topRight
    title := "Plugin Control"
    panelWidth := 300
    className := "" }

/-- `Partial<PluginControlOptions>`, as accepted by the constructor. -/
structure OptionsPatch where
  collapsed : Option Bool := none
  position : Option Corner := none
  title : Option String := none
  panelWidth : Option ℚ := none
  className : Option String := none
deriving DecidableEq

/-- `{ ...DEFAULT_OPTIONS, ...options }` in the constructor. -/
def spreadOptions (p : OptionsPatch) : PluginControlOptions :=
  { collapsed := p.collapsed.getD DEFAULT_OPTIONS.collapsed
    position := p.position.getD DEFAULT_OPTIONS.position
    title := p.title.getD DEFAULT_OPTIONS.title
    panelWidth := p.panelWidth.getD DEFAULT_OPTIONS.panelWidth
    className := p.className.getD DEFAULT_OPTIONS.className }

/-- Observable side effects of a control operation, in program order:
CSS class changes on the panel, the synchronous call to
`_updatePanelPosition`, and calls to `_emit`. -/
inductive Act
  | classAdd (cls : String)
  | classRemove (cls : String)
  | updatePos
  | emit (e : Ev)
deriving DecidableEq

/-- The `PluginControl` instance.  `attached` models the presence of the
`_map` / `_mapContainer` / `_container` / `_panel` references (all set by
`onAdd`, all cleared by `onRemove`); `panelExpanded` models the presence of
the `expanded` CSS class on the panel element. -/
structure Control where
  attached : Bool
  panelExpanded : Bool
  state : PluginState
  eventHandlers : EventHandlersMap
deriving DecidableEq

namespace Control

/-- The constructor `new PluginControl(options?)`: merges options over the
defaults and initialises the state; the control starts detached. -/
def mk' (p : OptionsPatch) : Control :=
  let o := spreadOptions p
  { attached := false
    panelExpanded := false
    state := { collapsed := o.collapsed, panelWidth := o.panelWidth, data := [] }
    eventHandlers := [] }

/-- `getState()`: returns `{ ...this._state }`.  In this value-level model the
result is the state value; the reference-sharing consequences of the shallow
copy are modelled in the Snapshot section below. -/
def getState (c : Control) : PluginState :=
  c.state

/-- The handler set `_emit` iterates over for an event (empty when the event
has no entry in the registry). -/
def handlersFor (c : Control) (e : Ev) : List Nat :=
  (mapGet c.eventHandlers e).getD []

/-- `_emit(event)`: the list of handler invocations performed, in iteration
order; each invocation receives `{ type: event, state: this.getState() }`. -/
def emitCalls (c : Control) (e : Ev) : List (Nat × Ev × PluginState) :=
  (handlersFor c e).map (fun h => (h, e, getState c))

/-- `setState(newState)`: `this._state = { ...this._state, ...newState }`
followed by `this._emit('statechange')`. -/
def setState (c : Control) (p : StatePatch) : Control × List Act :=
  ({ c with state := spreadState c.state p }, [Act.emit Ev.statechange])

/-- `toggle()`: flips `collapsed`; when the panel exists, removes or adds the
`expanded` class and emits `collapse`, or recomputes the position and emits
`expand`; always ends by emitting `statechange`. -/
def toggle (c : Control) : Control × List Act :=
  let st := { c.state with collapsed := !c.state.collapsed }
  if c.attached then
    if st.collapsed then
      ({ c with state := st, panelExpanded := false },
        [Act.classRemove "expanded", Act.emit Ev.collapse,
          Act.emit Ev.statechange])
    else
      ({ c with state := st, panelExpanded := true },
        [Act.classAdd "expanded", Act.updatePos, Act.emit Ev.expand,
          Act.emit Ev.statechange])
  else
    ({ c with state := st }, [Act.emit Ev.statechange])

/-- `expand()`: `if (this._state.collapsed) this.toggle()`. -/
def expand (c : Control) : Control × List Act :=
  if c.state.collapsed then toggle c else (c, [])

/-- `collapse()`: `if (!this._state.collapsed) this.toggle()`. -/
def collapse (c : Control) : Control × List Act :=
  if !c.state.collapsed then toggle c else (c, [])

/-- `on(event, handler)`: creates the handler set on first use, then adds the
handler to it. -/
def on' (c : Control) (e : Ev) (h : Nat) : Control :=
  let m := if mapHas c.eventHandlers e then c.eventHandlers
           else mapSetEntry c.eventHandlers e []
  { c with eventHandlers := mapSetEntry m e (setAdd ((mapGet m e).getD []) h) }

/-- `off(event, handler)`: `this._eventHandlers.get(event)?.delete(handler)`. -/
def off (c : Control) (e : Ev) (h : Nat) : Control :=
  match mapGet c.eventHandlers e with
  | none => c
  | some s => { c with eventHandlers := mapSetEntry c.eventHandlers e (setDelete s h) }

/-- `onAdd(map)`: stores the host references, creates the DOM elements and, if
the initial state is expanded, adds the `expanded` class (the deferred
one-frame position recompute is outside the synchronous transition). -/
def onAdd (c : Control) : Control :=
  { c with attached := true, panelExpanded := !c.state.collapsed }

/-- `onRemove()`: removes listeners and DOM elements, clears every host
reference and clears the handler registry. -/
def onRemove (c : Control) : Control :=
  { c with attached := false, panelExpanded := false, eventHandlers := [] }

end Control

/-- A DOM bounding box (`getBoundingClientRect`), exact rationals for JS
numbers. -/
structure Rect where
  top : ℚ
  bottom : ℚ
  left : ℚ
  right : ℚ
  height : ℚ
deriving DecidableEq

/-- The positional inline styles of the panel element; `none` models the CSS
value being reset to the empty string. -/
structure PanelStyle where
  top : Option ℚ := none
  bottom : Option ℚ := none
  left : Option ℚ := none
  right : Option ℚ := none
deriving DecidableEq

/-- `panelGap` from `_updatePanelPosition`. -/
def panelGap : ℚ := 5

/-- `_updatePanelPosition()`: the four presence flags model the guards
`if (!this._container || !this._panel || !this._mapContainer) return` and
`if (!button) return`; when all references are present the four candidate
offsets are computed, all four positional styles are reset and the two
relevant ones for the detected corner are set. -/
def updatePanelPosition (hasContainer hasPanel hasMapContainer hasButton : Bool)
    (buttonRect mapRect : Rect) (position : Corner) (style : PanelStyle) :
    PanelStyle :=
  if !hasContainer || !hasPanel || !hasMapContainer then style
  else if !hasButton then style
  else
    let buttonTop := buttonRect.top - mapRect.top
    let buttonBottom := mapRect.bottom - buttonRect.bottom
    let buttonLeft := buttonRect.left - mapRect.left
    let buttonRight := mapRect.right - buttonRect.right
    let reset : PanelStyle := {}
    match position with
    | Corner.topLeft =>
        { reset with top := some (buttonTop + buttonRect.height + panelGap)
                     left := some buttonLeft }
    | Corner.topRight =>
        { reset with top := some (buttonTop + buttonRect.height + panelGap)
                     right := some buttonRight }
    | Corner.bottomLeft =>
        { reset with bottom := some (buttonBottom + buttonRect.height + panelGap)
                     left := some buttonLeft }
    | Corner.bottomRight =>
        { reset with bottom := some (buttonBottom + buttonRect.height + panelGap)
                     right := some buttonRight }

/-! Snapshot identity model.

`getState()` and `_emit` hand out `{ ...this._state }`: a fresh top-level
object whose `data` field is the same object reference as the live state's
`data`.  To reason about mutation through that shared reference, data objects
live in an explicit heap and the state record holds an address. -/

/-- A heap of JS data objects; an address is an index into the list. -/
abbrev Heap := List DataObj

/-- The live `this._state` with `data` held by reference. -/
structure StateRef where
  collapsed : Bool
  panelWidth : ℚ
  dataRef : Nat
deriving DecidableEq

/-- `{ ...this._state }`: the shallow copy copies the two primitive fields and
copies the `data` reference (not the object it points to). -/
def shallowCopy (live : StateRef) : StateRef :=
  { collapsed := live.collapsed
    panelWidth := live.panelWidth
    dataRef := live.dataRef }

/-- JS assignment `obj[k] = v` on a data object: overwrites the key in place
or appends it. -/
def setKey (obj : DataObj) (k : String) (v : Nat) : DataObj :=
  if (lookupData obj k).isSome then
    obj.map (fun kv => if kv.1 = k then (k, v) else kv)
  else obj ++ [(k, v)]

/-- Mutating the data object stored at address `a`: `h[a][k] = v`. -/
def heapWrite (h : Heap) (a : Nat) (k : String) (v : Nat) : Heap :=
  h.set a (setKey (h.getD a []) k v)

/-- The data mapping a state actually observes: the object its `dataRef`
points to. -/
def observeData (h : Heap) (s : StateRef) : DataObj :=
  h.getD s.dataRef []

/-! The spec's description of the setState data merge.

Follows the spec's words ("`data` is merged one level deep", old keys not
present in the update are preserved), for comparison with the behaviour of
`Control.setState` as translated from the source. -/

/-- One-level-deep merge of a data mapping: keys present in the update
override, keys only in the old mapping are preserved. -/
def specMergedData (old upd : DataObj) : DataObj :=
  old.map (fun kv =>
      match lookupData upd kv.1 with
      | some v => (kv.1, v)
      | none => kv)
    ++ upd.filter (fun kv => (lookupData old kv.1).isNone)

/-! Helper lemmas on the registry primitives. -/

theorem mapGet_mapSetEntry (m : EventHandlersMap) (e : Ev) (s : HandlerSet) :
    mapGet (mapSetEntry m e s) e = some s := by
  induction m with
  | nil => simp [mapSetEntry, mapGet]
  | cons kv rest ih =>
      rcases kv with ⟨k, s0⟩
      by_cases h : k = e <;> simp [mapSetEntry, mapGet, h, ih]

theorem mapSetEntry_self (m : EventHandlersMap) (e : Ev) (s : HandlerSet)
    (hg : mapGet m e = some s) : mapSetEntry m e s = m := by
  induction m with
  | nil => simp [mapGet] at hg
  | cons kv rest ih =>
      rcases kv with ⟨k, s0⟩
      by_cases h : k = e
      · subst h
        simp [mapGet] at hg
        simp [mapSetEntry, hg]
      · simp [mapGet, h] at hg
        simp [mapSetEntry, h, ih hg]

theorem mem_setAdd_self (s : HandlerSet) (h : Nat) : h ∈ setAdd s h := by
  by_cases hm : h ∈ s <;> simp [setAdd, hm]

theorem setAdd_of_mem (s : HandlerSet) (h : Nat) (hm : h ∈ s) : setAdd s h = s := by
  simp [setAdd, hm]

theorem setDelete_of_not_mem (s : HandlerSet) (h : Nat) (hm : h ∉ s) :
    setDelete s h = s := by
  refine List.filter_eq_self.mpr ?_
  intro x hx
  simp only [decide_eq_true_eq]
  intro hxh
  exact hm (hxh ▸ hx)

theorem mapGet_on' (c : Control) (e : Ev) (h : Nat) :
    mapGet (Control.on' c e h).eventHandlers e
      = some (setAdd (Control.handlersFor c e) h) := by
  cases hh : mapGet c.eventHandlers e with
  | none => simp [Control.on', Control.handlersFor, mapHas, hh, mapGet_mapSetEntry]
  | some s => simp [Control.on', Control.handlersFor, mapHas, hh, mapGet_mapSetEntry]

theorem handlersFor_on' (c : Control) (e : Ev) (h : Nat) :
    Control.handlersFor (Control.on' c e h) e = setAdd (Control.handlersFor c e) h := by
  simp [Control.handlersFor, mapGet_on']

theorem emitCalls_fst (c : Control) (e : Ev) :
    (Control.emitCalls c e).map Prod.fst = Control.handlersFor c e := by
  simp only [Control.emitCalls, List.map_map]
  exact List.map_id (Control.handlersFor c e)

/-- A freshly constructed default-options control after `onAdd`. -/
def attachedDefault : Control := Control.onAdd (Control.mk' {})

/-! Claim theorems. -/

/-- Claim C1, counterexample.  The claim says that when the partial state
carries a `data` mapping, `setState` merges it one level deep into the old
`data` (old keys not present in the update are preserved).  On the code,
`{ ...this._state, ...newState }` replaces the `data` object wholesale: with
old data `{a: 1}` and update data `{b: 2}`, the key `"a"` is gone afterwards,
while the claimed one-level merge keeps it. -/
theorem setState_data_merge_counterexample :
    (Control.setState
        { attached := false, panelExpanded := false,
          state := { collapsed := true, panelWidth := 300, data := [("a", 1)] },
          eventHandlers := [] }
        { data := some [("b", 2)] }).1.state.data
      ≠ specMergedData [("a", 1)] [("b", 2)]
  ∧ lookupData (Control.setState
        { attached := false, panelExpanded := false,
          state := { collapsed := true, panelWidth := 300, data := [("a", 1)] },
          eventHandlers := [] }
        { data := some [("b", 2)] }).1.state.data "a" = none
  ∧ lookupData (specMergedData [("a", 1)] [("b", 2)]) "a" = some 1 := by
  refine ⟨?_, rfl, rfl⟩
  decide

/-- Claim C1, amended.  `setState(p)` merges the top-level fields of `p` into
the state shallowly and always emits `statechange`; when `p` carries a `data`
mapping the old mapping is replaced wholesale by `p`'s (old keys not present
in `p.data` are dropped), and when `p` carries no `data` field the old mapping
is kept. -/
theorem setState_shallow_merge_spec (c : Control) (p : StatePatch) :
    (Control.setState c p).1.state.collapsed = p.collapsed.getD c.state.collapsed
  ∧ (Control.setState c p).1.state.panelWidth = p.panelWidth.getD c.state.panelWidth
  ∧ (Control.setState c p).1.state.data = p.data.getD c.state.data
  ∧ (Control.setState c p).1.attached = c.attached
  ∧ (Control.setState c p).1.panelExpanded = c.panelExpanded
  ∧ (Control.setState c p).2 = [Act.emit Ev.statechange] :=
  ⟨rfl, rfl, rfl, rfl, rfl, rfl⟩

/-- Claim C3.  On an attached collapsed control, `toggle()` moves to Expanded
(the `expanded` class is added) with trace: add class, recompute position,
emit `expand`, emit `statechange` — position recomputed before `expand`, each
event exactly once, in order.  A second `toggle()` moves back to Collapsed
with trace: remove class, emit `collapse`, emit `statechange`. -/
theorem toggle_cycle_from_collapsed (c : Control) (hA : c.attached = true)
    (hC : c.state.collapsed = true) :
    (Control.toggle c).2
      = [Act.classAdd "expanded", Act.updatePos, Act.emit Ev.expand,
          Act.emit Ev.statechange]
  ∧ (Control.toggle c).1.state.collapsed = false
  ∧ (Control.toggle c).1.panelExpanded = true
  ∧ (Control.toggle (Control.toggle c).1).2
      = [Act.classRemove "expanded", Act.emit Ev.collapse, Act.emit Ev.statechange]
  ∧ (Control.toggle (Control.toggle c).1).1.state.collapsed = true
  ∧ (Control.toggle (Control.toggle c).1).1.panelExpanded = false := by
  simp [Control.toggle, hA, hC]

/-- Claim C3, witness: the default-options control right after `onAdd` is
attached and collapsed, and the toggle cycle behaves as stated. -/
theorem toggle_cycle_from_collapsed_witness :
    attachedDefault.attached = true
  ∧ attachedDefault.state.collapsed = true
  ∧ ((Control.toggle attachedDefault).2
      = [Act.classAdd "expanded", Act.updatePos, Act.emit Ev.expand,
          Act.emit Ev.statechange]
    ∧ (Control.toggle attachedDefault).1.state.collapsed = false
    ∧ (Control.toggle attachedDefault).1.panelExpanded = true
    ∧ (Control.toggle (Control.toggle attachedDefault).1).2
      = [Act.classRemove "expanded", Act.emit Ev.collapse, Act.emit Ev.statechange]
    ∧ (Control.toggle (Control.toggle attachedDefault).1).1.state.collapsed = true
    ∧ (Control.toggle (Control.toggle attachedDefault).1).1.panelExpanded = false) :=
  ⟨rfl, rfl, toggle_cycle_from_collapsed attachedDefault rfl rfl⟩

/-- Claim C4.  With every element reference present, the positioner computes the
four container-relative candidate offsets (`top = toggleTop - containerTop`,
`bottom = containerBottom - toggleBottom`, `left = toggleLeft - containerLeft`,
`right = containerRight - toggleRight`), resets all four positional styles,
and sets exactly the two for the detected corner with `gap = 5` (for
`top-right`: panel top `= top + toggleHeight + gap`, panel right `= right`) —
whatever style was set before, the other two are unset afterwards. -/
theorem updatePanelPosition_corner_table (bR mR : Rect) (st : PanelStyle) :
    updatePanelPosition true true true true bR mR Corner.topLeft st
      = { top := some ((bR.top - mR.top) + bR.height + panelGap),
          bottom := none, left := some (bR.left - mR.left), right := none }
  ∧ updatePanelPosition true true true true bR mR Corner.topRight st
      = { top := some ((bR.top - mR.top) + bR.height + panelGap),
          bottom := none, left := none, right := some (mR.right - bR.right) }
  ∧ updatePanelPosition true true true true bR mR Corner.bottomLeft st
      = { top := none, bottom := some ((mR.bottom - bR.bottom) + bR.height + panelGap),
          left := some (bR.left - mR.left), right := none }
  ∧ updatePanelPosition true true true true bR mR Corner.bottomRight st
      = { top := none, bottom := some ((mR.bottom - bR.bottom) + bR.height + panelGap),
          left := none, right := some (mR.right - bR.right) }
  ∧ panelGap = 5 :=
  ⟨rfl, rfl, rfl, rfl, rfl⟩

/-- Claim C5.  `setState({panelWidth: 400})` fires exactly `statechange` (no
`expand`, no `collapse`), afterwards `getState().panelWidth = 400`, and
`collapsed` (and the rest of the state) is unchanged. -/
theorem setState_panelWidth_only_statechange (c : Control) :
    (Control.setState c { panelWidth := some 400 }).2 = [Act.emit Ev.statechange]
  ∧ (Control.setState c { panelWidth := some 400 }).1.getState.panelWidth = 400
  ∧ (Control.setState c { panelWidth := some 400 }).1.getState.collapsed
      = c.state.collapsed
  ∧ (Control.setState c { panelWidth := some 400 }).1.getState.data = c.state.data :=
  ⟨rfl, rfl, rfl, rfl⟩

/-- Claim C9.  `expand()` on a non-collapsed control is a no-op with no events;
on a collapsed control it is exactly `toggle()`; symmetrically `collapse()`
is a no-op on a collapsed control and exactly `toggle()` otherwise. -/
theorem expand_collapse_noop_or_toggle (c : Control) :
    (c.state.collapsed = false → Control.expand c = (c, []))
  ∧ (c.state.collapsed = true → Control.expand c = Control.toggle c)
  ∧ (c.state.collapsed = true → Control.collapse c = (c, []))
  ∧ (c.state.collapsed = false → Control.collapse c = Control.toggle c) := by
  refine ⟨fun h => ?_, fun h => ?_, fun h => ?_, fun h => ?_⟩ <;>
    simp [Control.expand, Control.collapse, h]

/-- Claim C9, witness: on a control constructed expanded, `expand()` is a
silent no-op and `collapse()` is `toggle()`; on a default (collapsed) control,
`collapse()` is a silent no-op and `expand()` is `toggle()`. -/
theorem expand_collapse_noop_witness :
    (Control.mk' { collapsed := some false }).state.collapsed = false
  ∧ Control.expand (Control.mk' { collapsed := some false })
      = (Control.mk' { collapsed := some false }, [])
  ∧ Control.collapse (Control.mk' { collapsed := some false })
      = Control.toggle (Control.mk' { collapsed := some false })
  ∧ (Control.mk' {}).state.collapsed = true
  ∧ Control.collapse (Control.mk' {}) = (Control.mk' {}, [])
  ∧ Control.expand (Control.mk' {}) = Control.toggle (Control.mk' {}) :=
  ⟨rfl,
    (expand_collapse_noop_or_toggle _).1 rfl,
    (expand_collapse_noop_or_toggle _).2.2.2 rfl,
    rfl,
    (expand_collapse_noop_or_toggle _).2.2.1 rfl,
    (expand_collapse_noop_or_toggle _).2.1 rfl⟩

/-- Claim C10.  On a detached control (no panel), `toggle()` still flips
`collapsed` and emits only `statechange`: no `expand`/`collapse`, no class
change, no position recompute; the other state fields are untouched. -/
theorem toggle_detached (c : Control) (hA : c.attached = false) :
    (Control.toggle c).1.state.collapsed = !c.state.collapsed
  ∧ (Control.toggle c).2 = [Act.emit Ev.statechange]
  ∧ (Control.toggle c).1.panelExpanded = c.panelExpanded
  ∧ (Control.toggle c).1.attached = false
  ∧ (Control.toggle c).1.state.panelWidth = c.state.panelWidth
  ∧ (Control.toggle c).1.state.data = c.state.data := by
  simp [Control.toggle, hA]

/-- Claim C10, witness: a never-attached default control. -/
theorem toggle_detached_witness :
    (Control.mk' {}).attached = false
  ∧ ((Control.toggle (Control.mk' {})).1.state.collapsed
      = !(Control.mk' {}).state.collapsed
    ∧ (Control.toggle (Control.mk' {})).2 = [Act.emit Ev.statechange]
    ∧ (Control.toggle (Control.mk' {})).1.panelExpanded
      = (Control.mk' {}).panelExpanded
    ∧ (Control.toggle (Control.mk' {})).1.attached = false
    ∧ (Control.toggle (Control.mk' {})).1.state.panelWidth
      = (Control.mk' {}).state.panelWidth
    ∧ (Control.toggle (Control.mk' {})).1.state.data
      = (Control.mk' {}).state.data) :=
  ⟨rfl, toggle_detached (Control.mk' {}) rfl⟩

/-! More registry lemmas, for C6 and C7. -/

theorem mapSetEntry_mapSetEntry (m : EventHandlersMap) (e : Ev) (s1 s2 : HandlerSet) :
    mapSetEntry (mapSetEntry m e s1) e s2 = mapSetEntry m e s2 := by
  induction m with
  | nil => simp [mapSetEntry]
  | cons kv rest ih =>
      rcases kv with ⟨k, s0⟩
      by_cases h : k = e <;> simp [mapSetEntry, h, ih]

theorem on'_as_update (c : Control) (e : Ev) (h : Nat) :
    Control.on' c e h
      = { c with eventHandlers :=
            mapSetEntry c.eventHandlers e (setAdd (Control.handlersFor c e) h) } := by
  cases hh : mapGet c.eventHandlers e with
  | none =>
      simp [Control.on', Control.handlersFor, mapHas, hh, mapGet_mapSetEntry,
        mapSetEntry_mapSetEntry]
  | some s =>
      simp [Control.on', Control.handlersFor, mapHas, hh]

theorem on'_idem (c : Control) (e : Ev) (h : Nat) :
    Control.on' (Control.on' c e h) e h = Control.on' c e h := by
  have hg := mapGet_on' c e h
  rw [on'_as_update (Control.on' c e h) e h, handlersFor_on',
    setAdd_of_mem _ _ (mem_setAdd_self _ _), mapSetEntry_self _ _ _ hg]

theorem off_unregistered_eq (c : Control) (e : Ev) (h : Nat)
    (hun : h ∉ Control.handlersFor c e) : Control.off c e h = c := by
  cases hg : mapGet c.eventHandlers e with
  | none => simp [Control.off, hg]
  | some s =>
      have hs : h ∉ s := by simpa [Control.handlersFor, hg] using hun
      simp [Control.off, hg, setDelete_of_not_mem s h hs, mapSetEntry_self _ _ _ hg]

/-! The mirror invariant, for C2. -/

/-- The spec's invariant: on an attached control, the `collapsed` flag mirrors
the absence of the `expanded` class on the panel. -/
def MirrorInv (c : Control) : Prop :=
  c.attached = true → c.state.collapsed = !c.panelExpanded

theorem toggle_mirrorInv (c : Control) : MirrorInv (Control.toggle c).1 := by
  cases hA : c.attached <;> cases hC : c.state.collapsed <;>
    simp [MirrorInv, Control.toggle, hA, hC]

/-- Claim C2, counterexample.  The claim says `collapsed` always mirrors the
panel's visual expansion state after any completed operation, including
`setState`.  On the code, `setState({collapsed: false})` on an attached
collapsed control updates the flag without touching the `expanded` class:
afterwards `collapsed = false` while the class is still absent. -/
theorem mirror_inv_counterexample :
    (Control.setState attachedDefault { collapsed := some false }).1.attached = true
  ∧ (Control.setState attachedDefault { collapsed := some false }).1.state.collapsed
      = false
  ∧ (Control.setState attachedDefault { collapsed := some false }).1.panelExpanded
      = false
  ∧ ¬ ((Control.setState attachedDefault { collapsed := some false }).1.state.collapsed
        = !(Control.setState attachedDefault
              { collapsed := some false }).1.panelExpanded) := by
  refine ⟨rfl, rfl, rfl, ?_⟩
  decide

/-- Claim C2, amended.  The mirror invariant is preserved by `toggle`,
`expand`, `collapse`, `onAdd` (attach), `onRemove` (detach), and by `setState`
calls whose partial state carries no `collapsed` field; a `setState` that sets
`collapsed` can break it (see the counterexample). -/
theorem mirror_inv_preserved (c : Control) (p : StatePatch)
    (hInv : MirrorInv c) (hp : p.collapsed = none) :
    MirrorInv (Control.toggle c).1
  ∧ MirrorInv (Control.expand c).1
  ∧ MirrorInv (Control.collapse c).1
  ∧ MirrorInv (Control.setState c p).1
  ∧ MirrorInv (Control.onAdd c)
  ∧ MirrorInv (Control.onRemove c) := by
  refine ⟨toggle_mirrorInv c, ?_, ?_, ?_, ?_, ?_⟩
  · cases hC : c.state.collapsed with
    | false =>
        have he : Control.expand c = (c, []) := by simp [Control.expand, hC]
        rw [he]; exact hInv
    | true =>
        have he : Control.expand c = Control.toggle c := by simp [Control.expand, hC]
        rw [he]; exact toggle_mirrorInv c
  · cases hC : c.state.collapsed with
    | false =>
        have he : Control.collapse c = Control.toggle c := by
          simp [Control.collapse, hC]
        rw [he]; exact toggle_mirrorInv c
    | true =>
        have he : Control.collapse c = (c, []) := by simp [Control.collapse, hC]
        rw [he]; exact hInv
  · intro ha
    have hb : c.attached = true := ha
    simpa [Control.setState, spreadState, hp] using hInv hb
  · intro _
    simp [Control.onAdd]
  · intro ha
    simp [Control.onRemove] at ha

/-- Claim C2, witness: the freshly attached default control satisfies the
invariant, and it is preserved by every cited transition with a
`collapsed`-free partial state. -/
theorem mirror_inv_preserved_witness :
    MirrorInv attachedDefault
  ∧ ({ panelWidth := some 400 } : StatePatch).collapsed = none
  ∧ (MirrorInv (Control.toggle attachedDefault).1
    ∧ MirrorInv (Control.expand attachedDefault).1
    ∧ MirrorInv (Control.collapse attachedDefault).1
    ∧ MirrorInv (Control.setState attachedDefault { panelWidth := some 400 }).1
    ∧ MirrorInv (Control.onAdd attachedDefault)
    ∧ MirrorInv (Control.onRemove attachedDefault)) :=
  ⟨fun _ => rfl, rfl,
    mirror_inv_preserved attachedDefault { panelWidth := some 400 }
      (fun _ => rfl) rfl⟩

/-- Claim C6.  Registering the identical handler twice for the same event is
idempotent: the registry is unchanged by the second registration, and an
emission of that event invokes the handler exactly once — the same as after a
single registration. -/
theorem on_twice_single_invocation (c : Control) (e : Ev) (h : Nat)
    (hnew : h ∉ Control.handlersFor c e) :
    Control.on' (Control.on' c e h) e h = Control.on' c e h
  ∧ ((Control.emitCalls (Control.on' (Control.on' c e h) e h) e).map
      Prod.fst).count h = 1
  ∧ ((Control.emitCalls (Control.on' c e h) e).map Prod.fst).count h = 1 := by
  have hcount : (Control.handlersFor (Control.on' c e h) e).count h = 1 := by
    rw [handlersFor_on']
    simp [setAdd, hnew, List.count_append, List.count_eq_zero_of_not_mem hnew]
  refine ⟨on'_idem c e h, ?_, ?_⟩
  · rw [on'_idem c e h, emitCalls_fst]
    exact hcount
  · rw [emitCalls_fst]
    exact hcount

/-- Claim C6, witness: registering handler `7` for `expand` twice on a fresh
control. -/
theorem on_twice_single_invocation_witness :
    7 ∉ Control.handlersFor (Control.mk' {}) Ev.expand
  ∧ (Control.on' (Control.on' (Control.mk' {}) Ev.expand 7) Ev.expand 7
      = Control.on' (Control.mk' {}) Ev.expand 7
    ∧ ((Control.emitCalls
        (Control.on' (Control.on' (Control.mk' {}) Ev.expand 7) Ev.expand 7)
        Ev.expand).map Prod.fst).count 7 = 1
    ∧ ((Control.emitCalls (Control.on' (Control.mk' {}) Ev.expand 7)
        Ev.expand).map Prod.fst).count 7 = 1) :=
  ⟨by decide, on_twice_single_invocation (Control.mk' {}) Ev.expand 7 (by decide)⟩

/-- Claim C7.  Defensive no-ops: `off` with a handler that was never registered
leaves the control unchanged; `_emit` with zero subscribers performs no
invocations; `_updatePanelPosition` with any required element reference
absent leaves the panel style unchanged; and `onRemove` is idempotent and
safe on a never-attached control — none of these throws (each operation is a
total function in this embedding, mirroring the source's guards). -/
theorem defensive_noops (c c2 : Control) (e e2 : Ev) (h : Nat) (op : OptionsPatch)
    (hc hp hm hb : Bool) (bR mR : Rect) (pos : Corner) (st : PanelStyle)
    (hun : h ∉ Control.handlersFor c e)
    (hzero : Control.handlersFor c2 e2 = [])
    (hmiss : (hc && hp && hm && hb) = false) :
    Control.off c e h = c
  ∧ Control.emitCalls c2 e2 = []
  ∧ updatePanelPosition hc hp hm hb bR mR pos st = st
  ∧ Control.onRemove (Control.onRemove c) = Control.onRemove c
  ∧ Control.onRemove (Control.mk' op) = Control.mk' op := by
  refine ⟨off_unregistered_eq c e h hun, ?_, ?_, rfl, rfl⟩
  · simp [Control.emitCalls, hzero]
  · cases hc <;> cases hp <;> cases hm <;> cases hb <;>
      simp_all [updatePanelPosition]

/-- Claim C7, witness: a fresh control, handler `3`, the `collapse` event, and
a positioner call with the panel reference missing. -/
theorem defensive_noops_witness :
    3 ∉ Control.handlersFor (Control.mk' {}) Ev.collapse
  ∧ Control.handlersFor (Control.mk' {}) Ev.statechange = []
  ∧ (true && false && true && true) = false
  ∧ (Control.off (Control.mk' {}) Ev.collapse 3 = Control.mk' {}
    ∧ Control.emitCalls (Control.mk' {}) Ev.statechange = []
    ∧ updatePanelPosition true false true true
        { top := 0, bottom := 29, left := 0, right := 29, height := 29 }
        { top := 0, bottom := 600, left := 0, right := 800, height := 600 }
        Corner.topRight { top := some 1 }
      = { top := some 1 }
    ∧ Control.onRemove (Control.onRemove (Control.mk' {}))
      = Control.onRemove (Control.mk' {})
    ∧ Control.onRemove (Control.mk' { title := some "x" })
      = Control.mk' { title := some "x" }) :=
  ⟨by decide, rfl, rfl,
    defensive_noops (Control.mk' {}) (Control.mk' {}) Ev.collapse Ev.statechange 3
      { title := some "x" } true false true true
      { top := 0, bottom := 29, left := 0, right := 29, height := 29 }
      { top := 0, bottom := 600, left := 0, right := 800, height := 600 }
      Corner.topRight { top := some 1 } (by decide) rfl rfl⟩

/-! Heap lemma, for C8. -/

theorem getD_set_self_heap (l : Heap) (n : Nat) (x : DataObj) (hn : n < l.length) :
    (l.set n x).getD n [] = x := by
  induction l generalizing n with
  | nil => simp at hn
  | cons a t ih =>
      cases n with
      | zero => rfl
      | succ m => simpa [List.getD] using ih m (by simpa using hn)

/-- Claim C8, counterexample.  The claim says mutations made to the snapshot,
including to its nested `data` mapping, never alter the control's live state.
The snapshot `{ ...this._state }` copies the `data` reference, so writing
`snapshot.data["a"] = 2` mutates the very object the live state points to:
the live state's observed data changes from `{a: 1}` to `{a: 2}`. -/
theorem snapshot_mutation_counterexample :
    observeData [[("a", 1)]]
      { collapsed := true, panelWidth := 300, dataRef := 0 } = [("a", 1)]
  ∧ (shallowCopy { collapsed := true, panelWidth := 300, dataRef := 0 }).dataRef = 0
  ∧ observeData
      (heapWrite [[("a", 1)]]
        (shallowCopy { collapsed := true, panelWidth := 300, dataRef := 0 }).dataRef
        "a" 2)
      { collapsed := true, panelWidth := 300, dataRef := 0 } = [("a", 2)]
  ∧ observeData
      (heapWrite [[("a", 1)]]
        (shallowCopy { collapsed := true, panelWidth := 300, dataRef := 0 }).dataRef
        "a" 2)
      { collapsed := true, panelWidth := 300, dataRef := 0 }
      ≠ observeData [[("a", 1)]]
          { collapsed := true, panelWidth := 300, dataRef := 0 } := by
  refine ⟨rfl, rfl, by decide, by decide⟩

/-- Claim C8, amended.  The snapshot handed to `getState()` and to event
handlers is a shallow copy: the top-level fields are copied by value, but the
nested `data` mapping is the same object as the live state's — so a write
through the snapshot's `data` is observed through the live state (and vice
versa), while the top-level fields are mutually isolated. -/
theorem snapshot_shallow_copy_spec (live : StateRef) (h : Heap) (k : String)
    (v : Nat) (hval : live.dataRef < h.length) :
    (shallowCopy live).collapsed = live.collapsed
  ∧ (shallowCopy live).panelWidth = live.panelWidth
  ∧ (shallowCopy live).dataRef = live.dataRef
  ∧ observeData (heapWrite h (shallowCopy live).dataRef k v) live
      = setKey (observeData h live) k v := by
  refine ⟨rfl, rfl, rfl, ?_⟩
  exact getD_set_self_heap h live.dataRef _ hval

/-- Claim C8, witness: a one-object heap and a write of key `"b"` through the
snapshot. -/
theorem snapshot_shallow_copy_witness :
    ({ collapsed := true, panelWidth := 300, dataRef := 0 } : StateRef).dataRef
      < ([[("a", 1)]] : Heap).length
  ∧ ((shallowCopy { collapsed := true, panelWidth := 300, dataRef := 0 }).collapsed
      = ({ collapsed := true, panelWidth := 300, dataRef := 0 } : StateRef).collapsed
    ∧ (shallowCopy { collapsed := true, panelWidth := 300, dataRef := 0 }).panelWidth
      = ({ collapsed := true, panelWidth := 300, dataRef := 0 } : StateRef).panelWidth
    ∧ (shallowCopy { collapsed := true, panelWidth := 300, dataRef := 0 }).dataRef
      = ({ collapsed := true, panelWidth := 300, dataRef := 0 } : StateRef).dataRef
    ∧ observeData
        (heapWrite [[("a", 1)]]
          (shallowCopy { collapsed := true, panelWidth := 300, dataRef := 0 }).dataRef
          "b" 5)
        { collapsed := true, panelWidth := 300, dataRef := 0 }
      = setKey
          (observeData [[("a", 1)]]
            { collapsed := true, panelWidth := 300, dataRef := 0 }) "b" 5) :=
  ⟨by decide,
    snapshot_shallow_copy_spec
      { collapsed := true, panelWidth := 300, dataRef := 0 }
      [[("a", 1)]] "b" 5 (by decide)⟩
